import Mathlib

/-
  Verification development for the cloop-backend tutoring session engine.

  Shallow embedding of the core session state machine:
  - src/api/topic-chats/topic-chats.js  (message route, goal-progress updates,
    duplicate-question fallback, option route completion check)
  - src/services/topic_chat_helpers.js  (buildSystemPrompt branch selection,
    normalizeUserCorrectionOptions, analyzeChatHistory)
  - src/services/topic_chat_metrics.js  (calculateSessionMetrics)
  - src/unnamed/part_005                (generateTopicChatResponse glue)

  Persistence (prisma) is modelled as explicit record stores passed in and out;
  the LLM completion oracle is modelled as an Except-valued input.
-/

/-! ## JavaScript-style helpers -/

/-- The whitespace characters collapsed by the regex in normalizeText
(topic-chats.js line 14). -/
def jsIsSpace (c : Char) : Bool :=
  c = ' ' || c = '\t' || c = '\n' || c = '\r' || c = '\x0b' || c = '\x0c'

/-- Collapse every run of whitespace to a single space
(the replace with a global whitespace-run pattern). -/
def collapseWS (l : List Char) : List Char :=
  (l.foldl
    (fun (acc : List Char × Bool) c =>
      if jsIsSpace c then
        (if acc.2 then acc.1 else ' ' :: acc.1, true)
      else
        (c :: acc.1, false))
    ([], false)).1.reverse

/-- Drop whitespace at both ends, as String.prototype.trim does. -/
def jsTrimChars (l : List Char) : List Char :=
  ((l.dropWhile jsIsSpace).reverse.dropWhile jsIsSpace).reverse

/-- Model of String.prototype.trim. -/
def jsTrim (s : String) : String :=
  String.mk (jsTrimChars s.toList)

/-- normalizeText from topic-chats.js lines 12-15: collapse whitespace runs
to one space, trim, lowercase.  A non-string input maps to the empty string;
for string inputs only the empty string is falsy. -/
def normalizeText (s : String) : String :=
  if s = "" then ""
  else String.mk (((collapseWS s.toList) |> jsTrimChars).map Char.toLower)

/-- Whether the character occurs in the string (String.prototype.includes with
a one-character needle). -/
def containsChar (s : String) (c : Char) : Bool :=
  s.toList.contains c

/-- Case-sensitive substring test (String.prototype.includes / a literal
regex test). -/
def containsSub (s pat : String) : Bool :=
  s.toList.tails.any (fun t => pat.toList.isPrefixOf t)

/-- Case-insensitive substring test (a regex test with the i flag). -/
def ciContains (s pat : String) : Bool :=
  containsSub s.toLower pat.toLower

/-- Case-insensitive whole-string match (an anchored regex with the i flag). -/
def ciEquals (s pat : String) : Bool :=
  s.toLower == pat.toLower

/-- Math.round of num/den for den > 0: floor(num/den + 1/2). -/
def jsRoundNat (num den : Nat) : Nat :=
  (2 * num + den) / (2 * den)

/-- Math.round of num/den for integer num and positive den. -/
def jsRoundInt (num : Int) (den : Nat) : Int :=
  Int.fdiv (2 * num + den) (2 * den)

/-! ## Goal progress (chat_goal_progress rows) -/

/-- One chat_goal_progress row for a (learner, goal) pair. -/
structure GoalProgress where
  num_questions : Nat
  num_correct : Nat
  num_incorrect : Nat
  is_completed : Bool
deriving Repr, DecidableEq

/-- The lazily created initial row (topic-chats.js lines 611-625 and
1244-1256): all counters zero, not completed. -/
def initProgress : GoalProgress :=
  { num_questions := 0, num_correct := 0, num_incorrect := 0, is_completed := false }

/-- The canonical judgment shape carried in user_correction.feedback.
is_correct models the double-negation coercion of the raw truthiness;
an Option field is none when the JS value is absent (or, for score_percent,
not a number). -/
structure RawFeedback where
  is_correct : Bool
  bubble_color : Option String
  score_percent : Option Int
  error_type : Option String
deriving Repr, DecidableEq

/-- topic-chats.js line 1291: an answer counts as correct only when the
feedback says is_correct AND score_percent (with 0 for a missing or falsy
score) is at least 50. -/
def isCorrectAnswer (fb : RawFeedback) : Bool :=
  fb.is_correct && decide (50 ≤ fb.score_percent.getD 0)

/-- The graded-turn goal-progress update (topic-chats.js lines 1358-1423).
Every graded answer counts as a question (isActualAnswer is the constant
true, line 1290); the some branch mirrors lines 1358-1383, the none branch
the create path of lines 1384-1419. -/
def recordAnswer (fb : RawFeedback) : Option GoalProgress → GoalProgress
  | some p =>
    let newNumQuestions := p.num_questions + 1
    let newNumCorrect := p.num_correct + (if isCorrectAnswer fb then 1 else 0)
    let newNumIncorrect := p.num_incorrect + (if isCorrectAnswer fb then 0 else 1)
    { num_questions := newNumQuestions
      num_correct := newNumCorrect
      num_incorrect := newNumIncorrect
      is_completed := decide (2 ≤ newNumQuestions) }
  | none =>
    let numQuestions := 1
    let numCorrect := if isCorrectAnswer fb then 1 else 0
    let numIncorrect := if isCorrectAnswer fb then 0 else 1
    { num_questions := numQuestions
      num_correct := numCorrect
      num_incorrect := numIncorrect
      is_completed := decide (2 ≤ numQuestions) }

/-- The option-route completion check (topic-chats.js lines 931-948): if the
goal already has 2 questions and is not yet marked completed, mark it
completed; counters are untouched. -/
def completionCheck (p : GoalProgress) : GoalProgress :=
  if decide (2 ≤ p.num_questions) && !p.is_completed then
    { p with is_completed := true }
  else p

/-- The Session Engine operations that touch one (learner, goal) progress
record. -/
inductive SessionOp where
  | create : SessionOp
  | answer : RawFeedback → SessionOp
  | optionCheck : SessionOp
deriving Repr, DecidableEq

/-- Apply one operation to the (possibly absent) stored row.  create is
guarded by an existence check in the source, so it leaves an existing row
alone; the option-route check only runs when a row exists. -/
def applyOp : Option GoalProgress → SessionOp → Option GoalProgress
  | none, .create => some initProgress
  | some p, .create => some p
  | p, .answer fb => some (recordAnswer fb p)
  | none, .optionCheck => none
  | some p, .optionCheck => some (completionCheck p)

/-- Apply a whole history of operations, oldest first. -/
def applyOps (s : Option GoalProgress) (ops : List SessionOp) : Option GoalProgress :=
  ops.foldl applyOp s

/-- The completion invariant of the spec: completed exactly when at least
2 questions were asked. -/
def progressInvariant (p : GoalProgress) : Prop :=
  p.is_completed = true ↔ 2 ≤ p.num_questions

/-! ## Chat transcript analysis (topic_chat_helpers.js lines 376-401) -/

/-- One transcript row (admin_chat): sender, text and type tag. -/
structure ChatMsg where
  sender : String
  message : String
  message_type : String
deriving Repr, DecidableEq

/-- The result of analyzeChatHistory. -/
structure ChatAnalysis where
  aiMessages : List ChatMsg
  userResponses : List ChatMsg
  allQuestions : List String
  questionsAsked : Nat
  lastAIMessage : Option ChatMsg
  lastQuestion : Option String
  hasAskedQuestion : Bool
deriving Repr, DecidableEq

/-- analyzeChatHistory: AI questions are the plain-text AI messages containing
a question mark; the engine is awaiting an answer iff the most recent
plain-text AI message contains one. -/
def analyzeChatHistory (chatHistory : List ChatMsg) : ChatAnalysis :=
  let aiMessages := chatHistory.filter (fun m => m.sender == "ai" && m.message_type == "text")
  let userResponses := chatHistory.filter (fun m => m.sender == "user" && m.message_type != "user_correction")
  let allQuestions := (aiMessages.filter (fun m => m.message ≠ "" && containsChar m.message '?')).map (·.message)
  let lastAIMessage := aiMessages.getLast?
  let hasAskedQuestion :=
    match lastAIMessage with
    | some m => m.message ≠ "" && containsChar m.message '?'
    | none => false
  { aiMessages := aiMessages
    userResponses := userResponses
    allQuestions := allQuestions
    questionsAsked := allQuestions.length
    lastAIMessage := lastAIMessage
    lastQuestion := allQuestions.getLast?
    hasAskedQuestion := hasAskedQuestion }

/-! ## Session metrics (topic_chat_metrics.js, calculateSessionMetrics) -/

/-- One learning_turns row, restricted to the fields the aggregator reads. -/
structure LearningTurn where
  goal_id : Nat
  is_correct : Bool
  error_type : Option String
  error_subtype : Option String
  score_percent : Option Int
  response_time_sec : Option Int
  help_requested : Option String
  explain_loop_count : Option Nat
deriving Repr, DecidableEq

/-- One evaluation entry built from a learning turn
(topic_chat_metrics.js lines 96-109). -/
structure EvalRec where
  is_correct : Bool
  error_type : Option String
  error_subtype : Option String
  score_percent : Int
  goal_id : Nat
deriving Repr, DecidableEq

/-- Lines 96-109: an incorrect turn with no stored error type becomes
"Unknown"; a missing stored score defaults to 100 when correct and 10
otherwise. -/
def buildEvaluation (t : LearningTurn) : EvalRec :=
  { is_correct := t.is_correct
    error_type := if t.is_correct then none else some (t.error_type.getD "Unknown")
    error_subtype := t.error_subtype
    score_percent := t.score_percent.getD (if t.is_correct then 100 else 10)
    goal_id := t.goal_id }

/-- A topic goal row as handed to the engine and aggregator: the goal columns
plus the most recently updated chat_goal_progress row of this learner
(chat_goal_progress take 1 ordered by updated_at descending). -/
structure GoalRow where
  id : Nat
  title : String
  description : Option String
  progress : Option GoalProgress
deriving Repr, DecidableEq

/-- The stored data calculateSessionMetrics reads: this learner's
chat_goal_progress rows keyed by goal id (most recently updated first, as
the findFirst queries order them) and this learner's learning_turns in
chronological order. -/
structure MetricsDB where
  goal_progress : List (Nat × GoalProgress)
  learning_turns : List LearningTurn
deriving Repr, DecidableEq

/-- findFirst chat_goal_progress for one goal (lines 171-179). -/
def findProgress (db : MetricsDB) (goalId : Nat) : Option GoalProgress :=
  (db.goal_progress.find? (fun r => r.1 == goalId)).map (·.2)

/-- The last n elements of a chronological list: findMany ordered descending
with take n, then reversed back (lines 61-86). -/
def takeLast (n : Nat) (l : List LearningTurn) : List LearningTurn :=
  l.drop (l.length - n)

/-- One entry of top_error_types (lines 162-164). -/
structure ErrorTypeStat where
  type : String
  count : Nat
  percent : Nat
deriving Repr, DecidableEq

/-- Count-map over insertion-ordered string keys, as a JS object literal
indexed by error type behaves (lines 148-159). -/
def bumpCount (k : String) : List (String × Nat) → List (String × Nat)
  | [] => [(k, 1)]
  | (k', n) :: rest => if k' = k then (k', n + 1) :: rest else (k', n) :: bumpCount k rest

/-- Stable descending sort by count (the comparator b.count - a.count,
lines 162-163). -/
def insertByCountDesc (x : String × Nat) : List (String × Nat) → List (String × Nat)
  | [] => [x]
  | y :: ys => if y.2 < x.2 then x :: y :: ys else y :: insertByCountDesc x ys

def sortByCountDesc (l : List (String × Nat)) : List (String × Nat) :=
  l.foldr insertByCountDesc []

/-- One goal_performance entry (lines 189-199). -/
structure GoalPerformance where
  goal_id : Nat
  goal_title : String
  goal_description : Option String
  questions_asked : Nat
  correct_answers : Nat
  incorrect_answers : Nat
  score_percent : Nat
  is_weak : Bool
  mistakes : List String
deriving Repr, DecidableEq

/-- The SessionMetrics object (lines 237-267). -/
structure SessionMetrics where
  total_questions : Nat
  correct_answers : Nat
  incorrect_answers : Nat
  overall_score_percent : Int
  star_rating : Nat
  performance_level : String
  performance_color : String
  avg_response_time_sec : Int
  total_help_requests : Nat
  total_explanations : Nat
  top_error_types : List ErrorTypeStat
  error_type_counts : List (String × Nat)
  error_subtype_counts : List (String × Nat)
  goal_performance : List GoalPerformance
  weak_goals : List GoalPerformance
  has_weak_areas : Bool
  all_mistakes : List String
deriving Repr, DecidableEq

/-- Star rating thresholds (lines 214-219). -/
def starRating (overallScorePercent : Int) : Nat :=
  if 90 ≤ overallScorePercent then 5
  else if 75 ≤ overallScorePercent then 4
  else if 60 ≤ overallScorePercent then 3
  else if 40 ≤ overallScorePercent then 2
  else 1

/-- Performance level and colour (lines 222-230). -/
def performanceLevel (overallScorePercent : Int) : String × String :=
  if 80 ≤ overallScorePercent then ("Excellent", "#10B981")
  else if 60 ≤ overallScorePercent then ("Good", "#F59E0B")
  else ("Needs Improvement", "#EF4444")

/-- Per-goal performance entry from the most recent progress row
(lines 169-200). -/
def goalPerformanceFor (db : MetricsDB) (g : GoalRow) : GoalPerformance :=
  let progress := findProgress db g.id
  let questionsAsked := (progress.map (·.num_questions)).getD 0
  let correctCount := (progress.map (·.num_correct)).getD 0
  let incorrectCount := (progress.map (·.num_incorrect)).getD 0
  let goalScore := if 0 < questionsAsked then jsRoundNat (100 * correctCount) questionsAsked else 0
  { goal_id := g.id
    goal_title := g.title
    goal_description := g.description
    questions_asked := questionsAsked
    correct_answers := correctCount
    incorrect_answers := incorrectCount
    score_percent := goalScore
    is_weak := decide (goalScore < 70)
    mistakes := [] }

/-- calculateSessionMetrics (topic_chat_metrics.js lines 21-284), as the
pure aggregation over the stored rows it fetches.  The learning turns are
limited to the last 2 x goalCount rows (the session size). -/
def calculateSessionMetrics (db : MetricsDB) (topicGoals : List GoalRow) : SessionMetrics :=
  let goalIds := topicGoals.map (·.id)
  let sessionLimit := topicGoals.length * 2
  let learningTurns := takeLast sessionLimit (db.learning_turns.filter (fun t => goalIds.contains t.goal_id))
  let evaluations := learningTurns.map buildEvaluation
  let totalQuestions := evaluations.length
  let correctAnswers := (evaluations.filter (·.is_correct)).length
  let incorrectAnswers := totalQuestions - correctAnswers
  let totalScore := evaluations.foldl (fun acc e => acc + e.score_percent) 0
  let overallScorePercent := if 0 < totalQuestions then jsRoundInt totalScore totalQuestions else 0
  let incorrectEvals := evaluations.filter (fun e => !e.is_correct)
  let errorTypeCounts := incorrectEvals.foldl
    (fun acc e => match e.error_type with | some t => bumpCount t acc | none => acc) []
  let errorSubtypeCounts := incorrectEvals.foldl
    (fun acc e => match e.error_subtype with | some t => bumpCount t acc | none => acc) []
  let topErrorTypes := (sortByCountDesc errorTypeCounts).map
    (fun p => { type := p.1, count := p.2
                percent := if 0 < incorrectAnswers then jsRoundNat (100 * p.2) incorrectAnswers else 0 })
  let goalPerformance := topicGoals.map (goalPerformanceFor db)
  let weakGoals := goalPerformance.filter (·.is_weak)
  let level := performanceLevel overallScorePercent
  { total_questions := totalQuestions
    correct_answers := correctAnswers
    incorrect_answers := incorrectAnswers
    overall_score_percent := overallScorePercent
    star_rating := starRating overallScorePercent
    performance_level := level.1
    performance_color := level.2
    avg_response_time_sec :=
      if 0 < learningTurns.length then
        jsRoundInt (learningTurns.foldl (fun acc t => acc + t.response_time_sec.getD 0) 0) learningTurns.length
      else 0
    total_help_requests := (learningTurns.filter (fun t => t.help_requested == some "yes")).length
    total_explanations := learningTurns.foldl (fun acc t => acc + t.explain_loop_count.getD 0) 0
    top_error_types := topErrorTypes
    error_type_counts := errorTypeCounts
    error_subtype_counts := errorSubtypeCounts
    goal_performance := goalPerformance
    weak_goals := weakGoals
    has_weak_areas := decide (0 < weakGoals.length)
    all_mistakes := [] }

/-- The fixed object returned by the catch branch
(topic_chat_metrics.js lines 285-307). -/
def defaultMetrics : SessionMetrics :=
  { total_questions := 0
    correct_answers := 0
    incorrect_answers := 0
    overall_score_percent := 0
    star_rating := 1
    performance_level := "Unknown"
    performance_color := "#6B7280"
    avg_response_time_sec := 0
    total_help_requests := 0
    total_explanations := 0
    top_error_types := []
    error_type_counts := []
    error_subtype_counts := []
    goal_performance := []
    weak_goals := []
    has_weak_areas := false
    all_mistakes := [] }

/-- calculateSessionMetrics with its try/catch: a storage read failure is
swallowed and replaced by the fixed default object. -/
def calculateSessionMetricsResult (reads : Except Unit MetricsDB) (topicGoals : List GoalRow) :
    SessionMetrics :=
  match reads with
  | .ok db => calculateSessionMetrics db topicGoals
  | .error _ => defaultMetrics

/-- The aggregator as a state-passing computation over the store: it only
reads, so the store comes back unchanged. -/
def calculateSessionMetricsRun (db : MetricsDB) (topicGoals : List GoalRow) :
    SessionMetrics × MetricsDB :=
  (calculateSessionMetrics db topicGoals, db)

/-! ## Oracle output shape and normalization (topic_chat_helpers.js 406-486) -/

/-- The user_correction object as parsed from oracle output.  Option fields
are none when the JS value is absent or falsy (for message_type and emoji
this includes the empty string; for options, anything that is not an
array). -/
structure RawUserCorrection where
  message_type : Option String
  diff_html : Option String
  complete_answer : Option String
  options : Option (List String)
  emoji : Option String
  feedback : Option RawFeedback
deriving Repr, DecidableEq

/-- One entry of the messages array of an oracle response. -/
structure OutMessage where
  message : String
  message_type : String
  options : Option (List String) := none
  emoji : Option String := none
  complete_answer : Option String := none
  feedback : Option RawFeedback := none
deriving Repr, DecidableEq

/-- A parsed oracle response: a messages array plus an optional
user_correction object. -/
structure Parsed where
  messages : List OutMessage
  user_correction : Option RawUserCorrection
deriving Repr, DecidableEq

/-- The per-option rewriting step (helpers lines 409-416): known variants are
canonicalised; a falsy entry is returned untouched. -/
def normalizeOptionText (opt : String) : String :=
  if opt = "" then opt
  else if ciContains opt "explain more" then "Explain more"
  else if ciContains opt "confused" || ciEquals opt "explain" then "Explain"
  else if ciContains opt "got it" || ciContains opt "gotit" || ciContains opt "ok" || ciContains opt "confirm" then "Got it"
  else opt

/-- Feedback coercion (helpers lines 439-458): a missing feedback object is
replaced by a fixed incorrect default; otherwise is_correct is coerced to a
boolean, a missing bubble colour is filled from correctness, a non-number
score defaults to 100 when correct and 10 otherwise, a numeric 0 score on an
incorrect judgment is raised to 10, and a missing error type on an incorrect
judgment becomes Conceptual. -/
def normalizeFeedback : Option RawFeedback → RawFeedback
  | none =>
    { is_correct := false, bubble_color := some "red", score_percent := some 10, error_type := none }
  | some f =>
    { is_correct := f.is_correct
      bubble_color := some (f.bubble_color.getD (if f.is_correct then "green" else "red"))
      score_percent :=
        match f.score_percent with
        | some s => some (if s = 0 && !f.is_correct then 10 else s)
        | none => some (if f.is_correct then (100 : Int) else 10)
      error_type :=
        if f.error_type = none && f.is_correct = false then some "Conceptual"
        else f.error_type }

/-- Emoji assignment for a correction without one (helpers lines 461-482),
applied to the already-normalized feedback. -/
def emojiFor (f : RawFeedback) : String :=
  let scorePercent := f.score_percent.getD 0
  if f.is_correct then "😊"
  else if scorePercent = 0 then "😓"
  else if scorePercent < 50 then "😢"
  else if f.error_type == some "Spelling" || f.error_type == some "Grammar" then "😅"
  else "😔"

/-- normalizeUserCorrectionOptions (helpers lines 406-486).  The whole body
is guarded by user_correction being present AND its options being an array:
otherwise the parsed response is returned untouched. -/
def normalizeUserCorrectionOptions (parsed : Parsed) : Parsed :=
  match parsed.user_correction with
  | none => parsed
  | some uc =>
    match uc.options with
    | none => parsed
    | some opts0 =>
      let mapped := opts0.map normalizeOptionText
      let opts := mapped.filter (fun o => o ≠ "")
      let hasGot := opts.any (fun o => ciContains o "got it")
      let hasExplain := opts.any (fun o => ciContains o "explain")
      let finalOptions :=
        if !hasGot || !hasExplain then
          if opts.any (fun o => ciContains o "explain more") then ["Got it", "Explain more"]
          else ["Got it", "Explain"]
        else mapped
      let fb := normalizeFeedback uc.feedback
      let emoji :=
        match uc.emoji with
        | some e => some e
        | none => some (emojiFor fb)
      { parsed with
          user_correction := some
            { uc with
                options := some finalOptions
                message_type := some (uc.message_type.getD "user_correction")
                feedback := some fb
                emoji := emoji } }

/-! ## Session Engine action selection (part_005 and helpers 18-49, 271-277) -/

/-- The protocol action a system prompt instructs the oracle to take. -/
inductive TutorAction where
  | sessionSummary
  | endSessionCongrats
  | evaluateAnswer
  | askNextQuestion
deriving Repr, DecidableEq

/-- Whether a goal row counts as completed (part_005 lines 44-47: the first
joined chat_goal_progress row, defaulting to false). -/
def rowCompleted (g : GoalRow) : Bool :=
  match g.progress with
  | some p => p.is_completed
  | none => false

/-- Number of completed goals for the topic. -/
def completedGoalsCount (gs : List GoalRow) : Nat :=
  (gs.filter rowCompleted).length

/-- The branch structure of buildSystemPrompt (helpers lines 18-49 for the
forced session-summary prompt, lines 271-277 for the YOUR TASK directive of
the normal prompt). -/
def buildSystemPromptAction (shouldEndSession : Bool) (completedCount totalGoals : Nat)
    (sessionMetrics : Option SessionMetrics) (hasAskedQuestion : Bool)
    (userMessage : String) : TutorAction :=
  if shouldEndSession && (completedCount == totalGoals) && sessionMetrics.isSome then
    .sessionSummary
  else if shouldEndSession then
    .endSessionCongrats
  else if hasAskedQuestion && userMessage ≠ "" && jsTrim userMessage ≠ "" then
    .evaluateAnswer
  else
    .askNextQuestion

/-- generateTopicChatResponse (part_005 lines 27-99) up to the choice of
system prompt: session metrics are computed exactly when every goal is
completed and both a user id and a topic id were passed
(calculateSessionMetrics is total, so metrics are then always present). -/
def generateTopicChatAction (userMessage : String) (chatHistory : List ChatMsg)
    (topicGoals : List GoalRow) (userId topicId : Option Nat) (db : MetricsDB) : TutorAction :=
  let analysis := analyzeChatHistory chatHistory
  let completedCount := completedGoalsCount topicGoals
  let allGoalsCompleted := completedCount == topicGoals.length
  let shouldEndSession := allGoalsCompleted
  let sessionMetrics : Option SessionMetrics :=
    if shouldEndSession && userId.isSome && topicId.isSome then
      some (calculateSessionMetrics db topicGoals)
    else none
  buildSystemPromptAction shouldEndSession completedCount topicGoals.length sessionMetrics
    analysis.hasAskedQuestion userMessage

/-! ## Message-route grading (topic-chats.js 684-786, 1264-1423) -/

/-- The apologetic response of the catch branch of generateTopicChatResponse
(part_005 lines 294-303): plain messages, no user_correction. -/
def part005FallbackParsed : Parsed :=
  { messages :=
      [{ message := "I'm here to help you learn!", message_type := "text" },
       { message := "Could you rephrase that?", message_type := "text" }]
    user_correction := none }

/-- generateTopicChatResponse as seen by the route: a successfully parsed
oracle answer is normalized; any oracle failure is swallowed into the fixed
apologetic response. -/
def generateTopicChatParsed (oracle : Except Unit Parsed) : Parsed :=
  match oracle with
  | .ok p => normalizeUserCorrectionOptions p
  | .error _ => part005FallbackParsed

/-- The regex over a message that makes the route treat it as a correction
(topic-chats.js line 736). -/
def hasCorrectionMarkup (s : String) : Bool :=
  containsSub s "<del>" || containsSub s "<ins>"

/-- Find and remove the first message that looks like a correction
(the findIndex plus splice of lines 736-738). -/
def extractCorrectionMsg : List OutMessage → Option (OutMessage × List OutMessage)
  | [] => none
  | m :: rest =>
    if m.message_type == "user_correction" || hasCorrectionMarkup m.message then
      some (m, rest)
    else
      match extractCorrectionMsg rest with
      | some (c, rest') => some (c, m :: rest')
      | none => none

/-- The edge-case inference of topic-chats.js lines 735-786: when the model
sent the correction as an ordinary AI message, lift it into a
user_correction shape. -/
def inferUserCorrection (p : Parsed) : Parsed :=
  match p.user_correction with
  | some _ => p
  | none =>
    match extractCorrectionMsg p.messages with
    | none => p
    | some (c, rest) =>
      { messages := rest
        user_correction := some
          { message_type := some "user_correction"
            diff_html := if c.message = "" then none else some c.message
            complete_answer :=
              match c.complete_answer with
              | some a => some a
              | none => if c.message = "" then none else some c.message
            options := some (c.options.getD ["Got it", "Explain"])
            emoji := none
            feedback := some (c.feedback.getD
              { is_correct := false, bubble_color := some "red"
                score_percent := none, error_type := none }) } }

/-- One learning_turns row as written by the route (the fields under
verification). -/
structure RecordedTurn where
  question_text : Option String
  user_answer_raw : String
  corrected_answer : Option String
  diff_html : Option String
  error_type : Option String
  error_subtype : Option String
  is_correct : Bool
  score_percent : Int
deriving Repr, DecidableEq

/-- createLearningTurn as invoked at topic-chats.js lines 1293-1350: the
question is the most recent plain-text AI message containing a question
mark; the stored score falls back to 100 or 0 when the feedback score is
missing or 0. -/
def createLearningTurn (chatHistory : List ChatMsg) (message : String)
    (uc : RawUserCorrection) (fb : RawFeedback) : RecordedTurn :=
  let lastAIQuestion := chatHistory.reverse.find?
    (fun m => m.sender == "ai" && m.message_type == "text" && m.message ≠ "" && containsChar m.message '?')
  let isCorrect := isCorrectAnswer fb
  let scoreOrZero := fb.score_percent.getD 0
  { question_text := lastAIQuestion.map (·.message)
    user_answer_raw := message
    corrected_answer := uc.complete_answer
    diff_html := uc.diff_html
    error_type := fb.error_type
    error_subtype := none
    is_correct := isCorrect
    score_percent := if scoreOrZero = 0 then (if isCorrect then 100 else 0) else scoreOrZero }

/-- The grading side-effect state of one (learner, goal) pair: the appended
learning turns and the goal-progress row. -/
structure GradingState where
  turns : List RecordedTurn
  progress : Option GoalProgress
deriving Repr, DecidableEq

/-- The grading phase of POST /:topicId/message (topic-chats.js 684-706 and
1264-1423): obtain the oracle response (or the apologetic fallback), infer a
correction from plain messages if needed, and only when a user_correction
with feedback exists and a current goal is set, append a learning turn and
update goal progress. -/
def processMessageGrading (oracle : Except Unit Parsed) (chatHistory : List ChatMsg)
    (message : String) (currentGoal : Option Nat) (st : GradingState) :
    Parsed × GradingState :=
  let aiResponse := inferUserCorrection (generateTopicChatParsed oracle)
  match aiResponse.user_correction, currentGoal with
  | some uc, some _ =>
    match uc.feedback with
    | some fb =>
      (aiResponse,
        { turns := st.turns ++ [createLearningTurn chatHistory message uc fb]
          progress := some (recordAnswer fb st.progress) })
    | none => (aiResponse, st)
  | _, _ => (aiResponse, st)

/-! ## Duplicate-question fallback (topic-chats.js 708-731) -/

/-- The most recent AI message of any type (line 711). -/
def lastAiMessage (chatHistory : List ChatMsg) : Option ChatMsg :=
  chatHistory.reverse.find? (fun m => m.sender == "ai")

/-- The candidate question of a response: the first message containing a
question mark, else the first message (line 713). -/
def candidateQuestion (messages : List OutMessage) : Option OutMessage :=
  match messages.find? (fun m => m.message ≠ "" && containsChar m.message '?') with
  | some m => some m
  | none => messages.head?

/-- Whether the route retries: the candidate and the last AI message must
both normalize to nonempty text and be equal (lines 712-717). -/
def duplicateRetryNeeded (chatHistory : List ChatMsg) (aiResponse : Parsed) : Bool :=
  match lastAiMessage chatHistory with
  | none => false
  | some lastAi =>
    match candidateQuestion aiResponse.messages with
    | none => false
    | some cand =>
      let candText := normalizeText cand.message
      let lastText := normalizeText lastAi.message
      candText ≠ "" && lastText ≠ "" && candText == lastText

/-- The whole fallback (lines 708-731): at most one retry, whose result is
accepted unconditionally (a falsy retry result keeps the original response).
The boolean reports whether the single retry was used. -/
def duplicateQuestionFallback (chatHistory : List ChatMsg) (aiResponse : Parsed)
    (retryResult : Option Parsed) : Parsed × Bool :=
  if duplicateRetryNeeded chatHistory aiResponse then
    (match retryResult with
     | some r => r
     | none => aiResponse, true)
  else
    (aiResponse, false)

/-! ## The "I do not know" instruction constants -/

/-- The user_correction that the primary system prompt instructs the oracle
to return for an answer matching its "I do not know" phrase list
(topic_chat_helpers.js lines 167-183 and 342-350): incorrect, 10 percent,
error type "No Answer Provided". -/
def idkInstructedCorrection : RawUserCorrection :=
  { message_type := some "user_correction"
    diff_html := some "<del>i dont know</del> <ins>[complete correct answer to the question]</ins>"
    complete_answer := some "[full detailed explanation answering the question]"
    options := some ["Got it", "Explain"]
    emoji := some "😓"
    feedback := some
      { is_correct := false
        bubble_color := some "red"
        score_percent := some 10
        error_type := some "No Answer Provided" } }

/-- The judgment that the strict one-shot retry prompt instructs for an
"I do not know" answer (part_005 line 229): incorrect, 10 percent, error
type "Knowledge Gap". -/
def idkRetryInstructedFeedback : RawFeedback :=
  { is_correct := false
    bubble_color := none
    score_percent := some 10
    error_type := some "Knowledge Gap" }

/-! ## Concrete scenario data used by the theorems -/

/-- A learning turn with an explicit stored score. -/
def scenarioTurn (goalId : Nat) (isCorrect : Bool) (score : Int) : LearningTurn :=
  { goal_id := goalId
    is_correct := isCorrect
    error_type := if isCorrect then none else some "Conceptual"
    error_subtype := none
    score_percent := some score
    response_time_sec := none
    help_requested := none
    explain_loop_count := none }

/-- A completed-goal progress row. -/
def scenarioProgress (numCorrect numIncorrect : Nat) : GoalProgress :=
  { num_questions := numCorrect + numIncorrect
    num_correct := numCorrect
    num_incorrect := numIncorrect
    is_completed := true }

/-- The 3-goal topic of testable property 10 of the spec. -/
def c4Goals : List GoalRow :=
  [ { id := 1, title := "goal one", description := none, progress := some (scenarioProgress 2 0) },
    { id := 2, title := "goal two", description := none, progress := some (scenarioProgress 2 0) },
    { id := 3, title := "goal three", description := none, progress := some (scenarioProgress 0 2) } ]

/-- Its stored rows: 6 graded turns scored 100, 100, 100, 100, 10, 10. -/
def c4DB : MetricsDB :=
  { goal_progress :=
      [ (1, scenarioProgress 2 0), (2, scenarioProgress 2 0), (3, scenarioProgress 0 2) ]
    learning_turns :=
      [ scenarioTurn 1 true 100, scenarioTurn 1 true 100,
        scenarioTurn 2 true 100, scenarioTurn 2 true 100,
        scenarioTurn 3 false 10, scenarioTurn 3 false 10 ] }

/-- An oracle response whose user_correction has no options array: its
feedback reports an incorrect answer with a score of 0 and no error type. -/
def c6NoOptionsCorrection : RawUserCorrection :=
  { message_type := some "user_correction"
    diff_html := some "<del>wrong</del> <ins>right</ins>"
    complete_answer := some "right"
    options := none
    emoji := some "😔"
    feedback := some
      { is_correct := false, bubble_color := some "red", score_percent := some 0, error_type := none } }

def c6NoOptionsParsed : Parsed :=
  { messages := [], user_correction := some c6NoOptionsCorrection }

/-- A transcript in which the tutor asked two different questions; the last
AI message is the second question. -/
def c9Hist : List ChatMsg :=
  [ { sender := "ai", message := "What is force?", message_type := "text" },
    { sender := "user", message := "a push or pull", message_type := "text" },
    { sender := "ai", message := "Define energy?", message_type := "text" } ]

/-- A candidate response repeating the first question (up to case and
whitespace), which is not the most recent AI message. -/
def c9Resp : Parsed :=
  { messages := [{ message := "What is  FORCE?", message_type := "text" }]
    user_correction := none }

/-- A distinct response standing in for the output of the one retry call. -/
def c9RetryResp : Parsed :=
  { messages := [{ message := "What causes acceleration?", message_type := "text" }]
    user_correction := none }

/-- A one-goal topic whose single goal is completed. -/
def c3Goals : List GoalRow :=
  [ { id := 1, title := "the goal", description := none
      progress := some { num_questions := 2, num_correct := 1, num_incorrect := 1, is_completed := true } } ]

/-- An oracle response carrying the primary-prompt "I do not know"
correction. -/
def idkParsed : Parsed :=
  { messages := [], user_correction := some idkInstructedCorrection }

/-- The feedback of the C6 witness: incorrect with an explicit 0 score and
no error type. -/
def c6WitnessFeedback : RawFeedback :=
  { is_correct := false, bubble_color := none, score_percent := some 0, error_type := none }

/-- A user_correction whose options field is an array, used to witness the
amended normalization contract. -/
def c6WitnessCorrection : RawUserCorrection :=
  { message_type := none, diff_html := none, complete_answer := none
    options := some ["OK"], emoji := none, feedback := some c6WitnessFeedback }

/-! ## Theorems -/

theorem applyOp_preserves_invariant (s : Option GoalProgress) (op : SessionOp)
    (h : ∀ q, s = some q → progressInvariant q) :
    ∀ q, applyOp s op = some q → progressInvariant q := by
  intro q hq
  cases op with
  | create =>
    cases s with
    | none =>
      simp only [applyOp] at hq
      cases hq
      simp [progressInvariant, initProgress]
    | some p =>
      simp only [applyOp] at hq
      cases hq
      exact h _ rfl
  | answer fb =>
    cases s with
    | none =>
      simp only [applyOp, recordAnswer] at hq
      cases hq
      simp [progressInvariant]
    | some p =>
      simp only [applyOp, recordAnswer] at hq
      cases hq
      simp [progressInvariant]
  | optionCheck =>
    cases s with
    | none => exact Option.noConfusion hq
    | some p =>
      simp only [applyOp, completionCheck] at hq
      by_cases hc : (decide (2 ≤ p.num_questions) && !p.is_completed) = true
      · rw [if_pos hc] at hq
        cases hq
        simp only [Bool.and_eq_true, decide_eq_true_eq, Bool.not_eq_true'] at hc
        simp [progressInvariant, hc.1]
      · rw [if_neg hc] at hq
        cases hq
        exact h _ rfl

theorem applyOps_invariant (ops : List SessionOp) :
    ∀ s, (∀ q, s = some q → progressInvariant q) →
      ∀ q, applyOps s ops = some q → progressInvariant q := by
  induction ops with
  | nil => intro s h q hq; exact h q hq
  | cons op rest ih =>
    intro s h q hq
    exact ih (applyOp s op) (applyOp_preserves_invariant s op h) q hq

/-- C1: after any sequence of Session Engine operations that touch a
(learner, goal) progress record - lazy creation, graded-turn updates and
option-route completion checks, starting from no record - the stored row
satisfies is_completed = true exactly when num_questions is at least 2: never
at 0 or 1 questions, always at 2 or more. -/
theorem c1_goal_completion_invariant (ops : List SessionOp) (p : GoalProgress)
    (h : applyOps none ops = some p) :
    p.is_completed = true ↔ 2 ≤ p.num_questions :=
  applyOps_invariant ops none (fun _ hq => Option.noConfusion hq) p h

/-- Witness for C1 at a concrete operation history: create, one correct
answer, one incorrect answer, then the option-route check. -/
theorem c1_goal_completion_invariant_witness :
    applyOps none
        [SessionOp.create,
         SessionOp.answer
           { is_correct := true, bubble_color := some "green", score_percent := some 100, error_type := none },
         SessionOp.answer
           { is_correct := false, bubble_color := some "red", score_percent := some 10, error_type := some "Conceptual" },
         SessionOp.optionCheck]
      = some { num_questions := 2, num_correct := 1, num_incorrect := 1, is_completed := true } ∧
    ((GoalProgress.mk 2 1 1 true).is_completed = true ↔ 2 ≤ (GoalProgress.mk 2 1 1 true).num_questions) :=
  ⟨by decide,
   c1_goal_completion_invariant
     [SessionOp.create,
      SessionOp.answer
        { is_correct := true, bubble_color := some "green", score_percent := some 100, error_type := none },
      SessionOp.answer
        { is_correct := false, bubble_color := some "red", score_percent := some 10, error_type := some "Conceptual" },
      SessionOp.optionCheck]
     (GoalProgress.mk 2 1 1 true) (by decide)⟩

/-- C2 is false as stated: the update does not choose num_correct precisely
when the judgment flag isCorrect is true.  A judgment with is_correct = true
but score_percent = 30 (below the 50 threshold of line 1291) increments
num_incorrect, not num_correct. -/
theorem c2_counterexample :
    (RawFeedback.mk true (some "green") (some 30) none).is_correct = true ∧
    recordAnswer (RawFeedback.mk true (some "green") (some 30) none) (some initProgress)
      = { num_questions := 1, num_correct := 0, num_incorrect := 1, is_completed := false } := by
  decide

/-- C2 amended: every graded answer increments num_questions by exactly 1 and
exactly one of num_correct and num_incorrect by exactly 1; num_correct is
chosen precisely when the judgment has is_correct = true AND a score of at
least 50 (with a missing score read as 0); consequently
num_questions = num_correct + num_incorrect is preserved. -/
theorem c2_recordAnswer_update (fb : RawFeedback) (p : GoalProgress) :
    (recordAnswer fb (some p)).num_questions = p.num_questions + 1 ∧
    ((recordAnswer fb (some p)).num_correct = p.num_correct + 1 ↔
      fb.is_correct = true ∧ 50 ≤ fb.score_percent.getD 0) ∧
    ((recordAnswer fb (some p)).num_incorrect = p.num_incorrect + 1 ↔
      ¬(fb.is_correct = true ∧ 50 ≤ fb.score_percent.getD 0)) ∧
    (recordAnswer fb (some p)).num_correct + (recordAnswer fb (some p)).num_incorrect
      = p.num_correct + p.num_incorrect + 1 ∧
    (p.num_questions = p.num_correct + p.num_incorrect →
      (recordAnswer fb (some p)).num_questions
        = (recordAnswer fb (some p)).num_correct + (recordAnswer fb (some p)).num_incorrect) := by
  by_cases hc : isCorrectAnswer fb = true
  · have hiff : fb.is_correct = true ∧ 50 ≤ fb.score_percent.getD 0 := by
      simpa [isCorrectAnswer, Bool.and_eq_true, decide_eq_true_eq] using hc
    simp [recordAnswer, hc, hiff]
    omega
  · have hiff : ¬(fb.is_correct = true ∧ 50 ≤ fb.score_percent.getD 0) := by
      intro hcc
      exact hc (by simp [isCorrectAnswer, Bool.and_eq_true, decide_eq_true_eq, hcc.1, hcc.2])
    simp [recordAnswer, hc, hiff]
    omega

/-- C4: for the 3-goal topic with 6 graded turns scored 100, 100, 100, 100,
10, 10, the aggregator reports overall_score_percent = 70 (the rounded mean
of the per-turn scores) and star_rating = 3; the correct/total ratio would
instead give 67, so the mean is what is reported.  The star thresholds sit
exactly at 90, 75, 60 and 40. -/
theorem c4_session_metrics_example :
    (calculateSessionMetrics c4DB c4Goals).overall_score_percent = 70 ∧
    (calculateSessionMetrics c4DB c4Goals).star_rating = 3 ∧
    (calculateSessionMetrics c4DB c4Goals).total_questions = 6 ∧
    (calculateSessionMetrics c4DB c4Goals).correct_answers = 4 ∧
    jsRoundNat (100 * (calculateSessionMetrics c4DB c4Goals).correct_answers)
        (calculateSessionMetrics c4DB c4Goals).total_questions = 67 ∧
    starRating 90 = 5 ∧ starRating 89 = 4 ∧ starRating 75 = 4 ∧ starRating 74 = 3 ∧
    starRating 60 = 3 ∧ starRating 59 = 2 ∧ starRating 40 = 2 ∧ starRating 39 = 1 := by
  decide

/-- C8: the Metrics Aggregator only reads the store; running it twice on the
same stored TurnRecords and GoalProgress rows returns the same SessionMetrics
and leaves the store as it was. -/
theorem c8_metrics_idempotent (db : MetricsDB) (topicGoals : List GoalRow) :
    (calculateSessionMetricsRun db topicGoals).1
      = (calculateSessionMetricsRun (calculateSessionMetricsRun db topicGoals).2 topicGoals).1 ∧
    (calculateSessionMetricsRun (calculateSessionMetricsRun db topicGoals).2 topicGoals).2 = db :=
  ⟨rfl, rfl⟩

/-- C10 is false in its last clause: the error default is distinguishable
from the metrics of an empty session, because the computed performance_level
for an empty session is "Needs Improvement" (with colour #EF4444) while the
catch branch returns "Unknown" (with colour #6B7280). -/
theorem c10_counterexample :
    calculateSessionMetricsResult (Except.error ()) [] = defaultMetrics ∧
    (calculateSessionMetrics { goal_progress := [], learning_turns := [] } []).performance_level
      = "Needs Improvement" ∧
    defaultMetrics.performance_level = "Unknown" ∧
    calculateSessionMetrics { goal_progress := [], learning_turns := [] } [] ≠ defaultMetrics := by
  decide

/-- C10 amended: any error while computing session metrics is swallowed and
replaced by the fixed default object with total_questions 0,
correct_answers 0, overall_score_percent 0, star_rating 1, performance_level
"Unknown" and empty error and goal breakdowns; that object differs from the
metrics of an actual empty session exactly in performance_level and
performance_color. -/
theorem c10_metrics_error_default (topicGoals : List GoalRow) :
    calculateSessionMetricsResult (Except.error ()) topicGoals = defaultMetrics ∧
    defaultMetrics.total_questions = 0 ∧
    defaultMetrics.correct_answers = 0 ∧
    defaultMetrics.overall_score_percent = 0 ∧
    defaultMetrics.star_rating = 1 ∧
    defaultMetrics.performance_level = "Unknown" ∧
    defaultMetrics.top_error_types = [] ∧
    defaultMetrics.error_type_counts = [] ∧
    defaultMetrics.goal_performance = [] ∧
    defaultMetrics.weak_goals = [] ∧
    (calculateSessionMetrics { goal_progress := [], learning_turns := [] } []).performance_level
      ≠ defaultMetrics.performance_level := by
  refine ⟨rfl, rfl, rfl, rfl, rfl, rfl, rfl, rfl, rfl, rfl, by decide⟩

/-- C3: once every goal of the topic is completed, the Session Engine
selects the forced session-summary prompt for any input message (metrics are
always computed, since the aggregator is total), and no call - with or
without learner and topic ids - ever selects the ask-question action. -/
theorem c3_all_goals_complete_absorbing (userMessage : String) (chatHistory : List ChatMsg)
    (topicGoals : List GoalRow) (userId topicId : Nat) (db : MetricsDB)
    (hall : completedGoalsCount topicGoals = topicGoals.length) :
    generateTopicChatAction userMessage chatHistory topicGoals (some userId) (some topicId) db
      = TutorAction.sessionSummary ∧
    ∀ uid tid : Option Nat,
      generateTopicChatAction userMessage chatHistory topicGoals uid tid db
        ≠ TutorAction.askNextQuestion := by
  have hb : (completedGoalsCount topicGoals == topicGoals.length) = true := by
    simp [hall]
  constructor
  · simp [generateTopicChatAction, buildSystemPromptAction, hb]
  · intro uid tid
    cases uid <;> cases tid <;>
      simp [generateTopicChatAction, buildSystemPromptAction, hb]

/-- Witness for C3 on a concrete completed one-goal topic. -/
theorem c3_all_goals_complete_absorbing_witness :
    completedGoalsCount c3Goals = c3Goals.length ∧
    (generateTopicChatAction "what is next?" [] c3Goals (some 7) (some 9)
        { goal_progress := [], learning_turns := [] }
      = TutorAction.sessionSummary ∧
    ∀ uid tid : Option Nat,
      generateTopicChatAction "what is next?" [] c3Goals uid tid
          { goal_progress := [], learning_turns := [] }
        ≠ TutorAction.askNextQuestion) :=
  ⟨by decide,
   c3_all_goals_complete_absorbing "what is next?" [] c3Goals 7 9
     { goal_progress := [], learning_turns := [] } (by decide)⟩

/-- C7: when the oracle path fails, the route answers with the pre-written
apologetic messages, carries no user_correction, and performs no grading
side effect: the learning-turn log and the goal-progress row are exactly as
before. -/
theorem c7_oracle_failure_no_grading (chatHistory : List ChatMsg) (message : String)
    (currentGoal : Option Nat) (st : GradingState) :
    processMessageGrading (Except.error ()) chatHistory message currentGoal st
      = (part005FallbackParsed, st) ∧
    part005FallbackParsed.user_correction = none ∧
    part005FallbackParsed.messages.map (fun m => m.message)
      = ["I'm here to help you learn!", "Could you rephrase that?"] := by
  refine ⟨?_, rfl, rfl⟩
  cases currentGoal <;> rfl

/-- C5 is false in its error-type clause: for an "I do not know" answer
graded through the primary system prompt, the recorded judgment carries
error type "No Answer Provided", not "Knowledge Gap". -/
theorem c5_counterexample :
    ((processMessageGrading (Except.ok idkParsed) [] "i dont know" (some 1)
        { turns := [], progress := none }).2.turns.map (fun t => t.error_type))
      = [some "No Answer Provided"] ∧
    (some "No Answer Provided" : Option String) ≠ some "Knowledge Gap" := by
  decide

/-- C5 amended: an "I do not know" answer graded per the primary prompt is
recorded with scorePercent 10 (never 0), isCorrect false, and errorType
"No Answer Provided"; the string "Knowledge Gap" is instructed only by the
strict one-shot retry prompt. -/
theorem c5_idk_judgment (chatHistory : List ChatMsg) (st : GradingState) (goalId : Nat) :
    ((processMessageGrading (Except.ok idkParsed) chatHistory "i dont know" (some goalId) st).2.turns.map
        (fun t => (t.is_correct, t.score_percent, t.error_type)))
      = (st.turns.map (fun t => (t.is_correct, t.score_percent, t.error_type)))
          ++ [(false, 10, some "No Answer Provided")] ∧
    (processMessageGrading (Except.ok idkParsed) chatHistory "i dont know" (some goalId) st).2.progress
      = some (recordAnswer (normalizeFeedback idkInstructedCorrection.feedback) st.progress) ∧
    isCorrectAnswer (normalizeFeedback idkInstructedCorrection.feedback) = false ∧
    (normalizeFeedback idkInstructedCorrection.feedback).score_percent = some 10 ∧
    (normalizeFeedback idkInstructedCorrection.feedback).error_type = some "No Answer Provided" ∧
    idkRetryInstructedFeedback.is_correct = false ∧
    idkRetryInstructedFeedback.score_percent = some 10 ∧
    idkRetryInstructedFeedback.error_type = some "Knowledge Gap" := by
  refine ⟨?_, ?_, by decide, by decide, by decide, by decide, by decide, by decide⟩
  · simp [processMessageGrading, generateTopicChatParsed, idkParsed, inferUserCorrection,
      normalizeUserCorrectionOptions, idkInstructedCorrection, normalizeFeedback,
      createLearningTurn, isCorrectAnswer]
  · simp [processMessageGrading, generateTopicChatParsed, idkParsed, inferUserCorrection,
      normalizeUserCorrectionOptions, idkInstructedCorrection, normalizeFeedback]

/-- C6 is false as stated: normalization runs only when user_correction has
an options array.  This oracle output has a user_correction whose feedback
is incorrect with score_percent 0 and no error type, yet normalization
leaves it completely unchanged: the score stays 0 and the error type stays
missing. -/
theorem c6_counterexample :
    normalizeUserCorrectionOptions c6NoOptionsParsed = c6NoOptionsParsed ∧
    c6NoOptionsCorrection.options = none ∧
    c6NoOptionsCorrection.feedback
      = some { is_correct := false, bubble_color := some "red", score_percent := some 0, error_type := none } := by
  decide

/-- C6 amended: when the oracle output has a user_correction whose options
field is an array and whose feedback is an object, normalization coerces the
feedback as claimed: a missing score_percent defaults to 100 when correct
and 10 otherwise, a 0 score on an incorrect judgment is raised to 10 (so an
incorrect judgment never keeps score 0), and a missing error_type on an
incorrect judgment becomes the generic "Conceptual". -/
theorem c6_normalization_amended (messages : List OutMessage) (uc : RawUserCorrection)
    (opts : List String) (fb : RawFeedback)
    (ho : uc.options = some opts) (hf : uc.feedback = some fb) :
    ∃ uc',
      (normalizeUserCorrectionOptions { messages := messages, user_correction := some uc }).user_correction
        = some uc' ∧
      uc'.feedback = some (normalizeFeedback (some fb)) ∧
      (fb.score_percent = none →
        (normalizeFeedback (some fb)).score_percent = some (if fb.is_correct then 100 else 10)) ∧
      (fb.score_percent = some 0 → fb.is_correct = false →
        (normalizeFeedback (some fb)).score_percent = some 10) ∧
      (fb.is_correct = false → fb.error_type = none →
        (normalizeFeedback (some fb)).error_type = some "Conceptual") ∧
      (fb.is_correct = false → (normalizeFeedback (some fb)).score_percent ≠ some 0) := by
  obtain ⟨mt, dh, ca, o, em, f⟩ := uc
  simp only at ho hf
  subst ho
  subst hf
  refine ⟨_, rfl, rfl, ?_, ?_, ?_, ?_⟩
  · intro h
    simp [normalizeFeedback, h]
  · intro h hic
    simp [normalizeFeedback, h, hic]
  · intro hic het
    simp [normalizeFeedback, het, hic]
  · intro hic
    cases hs : fb.score_percent with
    | none => simp [normalizeFeedback, hs, hic]
    | some s =>
      by_cases h0 : s = 0 <;> simp [normalizeFeedback, hs, hic, h0]

/-- Witness for C6 at a concrete correction with an options array and an
incorrect 0-score feedback. -/
theorem c6_normalization_amended_witness :
    c6WitnessCorrection.options = some ["OK"] ∧
    c6WitnessCorrection.feedback = some c6WitnessFeedback ∧
    (∃ uc',
      (normalizeUserCorrectionOptions { messages := [], user_correction := some c6WitnessCorrection }).user_correction
        = some uc' ∧
      uc'.feedback = some (normalizeFeedback (some c6WitnessFeedback)) ∧
      (c6WitnessFeedback.score_percent = none →
        (normalizeFeedback (some c6WitnessFeedback)).score_percent
          = some (if c6WitnessFeedback.is_correct then 100 else 10)) ∧
      (c6WitnessFeedback.score_percent = some 0 → c6WitnessFeedback.is_correct = false →
        (normalizeFeedback (some c6WitnessFeedback)).score_percent = some 10) ∧
      (c6WitnessFeedback.is_correct = false → c6WitnessFeedback.error_type = none →
        (normalizeFeedback (some c6WitnessFeedback)).error_type = some "Conceptual") ∧
      (c6WitnessFeedback.is_correct = false →
        (normalizeFeedback (some c6WitnessFeedback)).score_percent ≠ some 0)) :=
  ⟨rfl, rfl, c6_normalization_amended [] c6WitnessCorrection ["OK"] c6WitnessFeedback rfl rfl⟩

/-- C9 is false as stated: the deterministic duplicate check compares the
candidate question only against the most recent AI message, not against
every previously asked question.  Here the candidate repeats the first
question of the transcript (equal after normalization), yet no retry is
made and the duplicate is emitted directly. -/
theorem c9_counterexample :
    (analyzeChatHistory c9Hist).allQuestions = ["What is force?", "Define energy?"] ∧
    (candidateQuestion c9Resp.messages).map (fun m => normalizeText m.message)
      = some (normalizeText "What is force?") ∧
    duplicateRetryNeeded c9Hist c9Resp = false ∧
    duplicateQuestionFallback c9Hist c9Resp (some c9RetryResp) = (c9Resp, false) := by
  decide

/-- C9 amended: the fallback retries exactly when the candidate question and
the most recent AI message both normalize (case-insensitive,
whitespace-collapsed) to the same nonempty text; it performs at most one
retry and accepts the retry result unconditionally, even if it is still a
duplicate. -/
theorem c9_duplicate_check_amended (chatHistory : List ChatMsg) (aiResponse retryResp : Parsed) :
    (duplicateRetryNeeded chatHistory aiResponse = true ↔
      ∃ lastAi cand,
        lastAiMessage chatHistory = some lastAi ∧
        candidateQuestion aiResponse.messages = some cand ∧
        normalizeText cand.message ≠ "" ∧
        normalizeText lastAi.message ≠ "" ∧
        normalizeText cand.message = normalizeText lastAi.message) ∧
    duplicateQuestionFallback chatHistory aiResponse (some retryResp)
      = (if duplicateRetryNeeded chatHistory aiResponse then retryResp else aiResponse,
         duplicateRetryNeeded chatHistory aiResponse) := by
  constructor
  · cases hq : lastAiMessage chatHistory with
    | none => simp [duplicateRetryNeeded, hq]
    | some la =>
      cases hc : candidateQuestion aiResponse.messages with
      | none => simp [duplicateRetryNeeded, hq, hc]
      | some c =>
        simp only [duplicateRetryNeeded, hq, hc, Bool.and_eq_true, decide_eq_true_eq,
          beq_iff_eq, Option.some.injEq, ne_eq]
        constructor
        · rintro ⟨⟨h1, h2⟩, h3⟩
          exact ⟨la, c, rfl, rfl, h1, h2, h3⟩
        · rintro ⟨la', c', hla, hcc, h1, h2, h3⟩
          subst hla
          subst hcc
          exact ⟨⟨h1, h2⟩, h3⟩
  · by_cases hd : duplicateRetryNeeded chatHistory aiResponse = true
    · simp [duplicateQuestionFallback, hd]
    · simp [duplicateQuestionFallback, hd]
